import Mathlib

/-!
Shallow embedding of the HealthGuard edge node's data-collection and
synchronization core (`app/sync/sync_service.py`, `app/sensors/sensor_manager.py`,
`app/sensors/mock_sensor.py`, `app/database/models.py`).

Randomness (`random.gauss`, `random.random`, `random.choice`), transcendental
library calls (`math.sin`, `math.exp`), wall-clock time, the JSON serializer and
the HMAC primitive are external collaborators of the core; they enter the model
as explicit parameters (the realized draw / the library function), so every
theorem quantifies over all of their possible behaviours.  Machine reals are
modelled by `ℚ`.
-/

namespace HealthGuard

/-- Model of Python's built-in `round` to zero digits on a real value:
round-half-to-even (banker's rounding). -/
def pyRound (x : ℚ) : ℤ :=
  let f : ℤ := ⌊x⌋
  let frac : ℚ := x - f
  if frac < 1/2 then f
  else if 1/2 < frac then f + 1
  else if Even f then f else f + 1

/-- Model of Python's `round(x, nd)` for `nd ≥ 0` digits. -/
def roundTo (nd : ℕ) (x : ℚ) : ℚ :=
  (pyRound (x * 10 ^ nd) : ℚ) / (10 ^ nd : ℚ)

/-- Model of Python's float modulo `a % b` for `b > 0`:
`a - b * floor (a / b)`. -/
def qfmod (a b : ℚ) : ℚ := a - b * ⌊a / b⌋

/-! ## Data model (`app/database/models.py`) -/

/-- Row of the `vital_readings` table (`VitalReading` in `models.py`):
integer autoincrement id, UUID string, capture timestamp (nullable column,
modelled as `Option ℤ`), six nullable vitals, nullable raw PPG waveform,
and the sync-state pair `synced` / `synced_at`. -/
structure VitalReading where
  id : ℕ
  uuid : String
  patient_id : ℕ
  timestamp : Option ℤ
  heart_rate : Option ℚ
  spo2 : Option ℚ
  temperature : Option ℚ
  blood_pressure_sys : Option ℚ
  blood_pressure_dia : Option ℚ
  respiratory_rate : Option ℚ
  ppg_raw : Option (List ℚ)
  synced : Bool
  synced_at : Option ℤ
deriving DecidableEq, Repr

/-- Row of the `sync_logs` table (`SyncLog` in `models.py`), as written by
`_log_sync` in `sync_service.py`. -/
structure SyncLogEntry where
  records_sent : ℕ
  status : String
  error_message : Option String
  duration_ms : ℕ
deriving DecidableEq, Repr

/-- The `SyncResult` schema (`app/schemas.py`). -/
structure SyncResult where
  status : String
  records_sent : ℕ
  duration_ms : ℕ
  error : Option String
deriving DecidableEq, Repr

/-! ## Unsynced-batch selection (`sync_service.py` lines 56–62)

`select(VitalReading).where(synced == False).order_by(timestamp).limit(n)`:
filter the unsynced rows, sort them by the `timestamp` column ascending
(SQL `NULL`s ordering first, the SQLite default), take the first `n`. -/

/-- SQL ascending order on the nullable `timestamp` column: `NULL` sorts
before every value. -/
def optTsLE : Option ℤ → Option ℤ → Prop
  | none, _ => True
  | some _, none => False
  | some a, some b => a ≤ b

instance : DecidableRel optTsLE := by
  intro a b
  cases a <;> cases b <;> simp [optTsLE] <;> infer_instance

/-- `ORDER BY timestamp` comparison between two rows. -/
def byTimestamp (a b : VitalReading) : Prop := optTsLE a.timestamp b.timestamp

instance : DecidableRel byTimestamp := by
  intro a b
  unfold byTimestamp
  infer_instance

instance : IsTotal VitalReading byTimestamp := by
  constructor
  intro a b
  cases ha : a.timestamp <;> cases hb : b.timestamp <;>
    simp [byTimestamp, optTsLE, ha, hb]
  exact le_total _ _

instance : IsTrans VitalReading byTimestamp := by
  constructor
  intro a b c hab hbc
  cases ha : a.timestamp <;> cases hb : b.timestamp <;> cases hc : c.timestamp <;>
    simp_all [byTimestamp, optTsLE]
  exact le_trans hab hbc

/-- The unsynced batch fetched at the start of `sync_now`. -/
def selectBatch (store : List VitalReading) (batch_size : ℕ) : List VitalReading :=
  (List.insertionSort byTimestamp (store.filter (fun r => !r.synced))).take batch_size

/-! ## Mark-synced update (`sync_service.py` lines 133–141)

`UPDATE vital_readings SET synced = true, synced_at = now WHERE id IN ids`. -/

/-- The batch-atomic mark-synced update. -/
def markSynced (store : List VitalReading) (ids : List ℕ) (now : ℤ) : List VitalReading :=
  store.map (fun r =>
    if r.id ∈ ids then { r with synced := true, synced_at := some now } else r)

/-! ## Sensor data and persistence (`sensor_interface.py`, `sensor_manager.py`) -/

/-- The `SensorData` dataclass (`sensor_interface.py`): timestamp plus six
optional vitals and an optional raw waveform. -/
structure SensorData where
  timestamp : ℤ
  heart_rate : Option ℚ
  spo2 : Option ℚ
  temperature : Option ℚ
  blood_pressure_sys : Option ℚ
  blood_pressure_dia : Option ℚ
  respiratory_rate : Option ℚ
  ppg_raw : Option (List ℚ)
deriving DecidableEq, Repr

/-- `_persist_reading` (`sensor_manager.py` lines 68–84): insert one row built
from a `SensorData`, with `synced = False` and `synced_at` left at its `NULL`
default.  The store-assigned autoincrement `id` and the generated `uuid`
default are inputs of the model. -/
def persist_reading (data : SensorData) (patient_id : ℕ) (id : ℕ) (uuid : String)
    (store : List VitalReading) : List VitalReading :=
  store ++ [{ id := id
              uuid := uuid
              patient_id := patient_id
              timestamp := some data.timestamp
              heart_rate := data.heart_rate
              spo2 := data.spo2
              temperature := data.temperature
              blood_pressure_sys := data.blood_pressure_sys
              blood_pressure_dia := data.blood_pressure_dia
              respiratory_rate := data.respiratory_rate
              ppg_raw := data.ppg_raw
              synced := false
              synced_at := none }]

/-! ## Mock sensor (`app/sensors/mock_sensor.py`)

`sinAt period t` models `math.sin(2 * math.pi * t / period)`; `pyExp` models
`math.exp`; each `gauss…` field is a realized standard-normal draw, so
`random.gauss(0, amp)` appears as `amp * draw`. -/

/-- The random draws consumed by one `MockSensor.read()` call. -/
structure MockDraws where
  anomalyRoll : Bool
  hrChoice : Bool
  gaussHr : ℚ
  gaussSpo2 : ℚ
  gaussTemp : ℚ
  gaussSys : ℚ
  gaussDia : ℚ
  gaussRr : ℚ
  ppgGauss : ℕ → ℚ

/-- `MockSensor._generate_vital`: `base + wave_amp * sin(2πt/period) +
gauss(0, noise_amp) + (anomaly_offset when anomaly)`. -/
def MockSensor.generate_vital (sinAt : ℕ → ℕ → ℚ) (base noise_amp wave_amp : ℚ)
    (period t : ℕ) (gaussStd : ℚ) (anomaly : Bool) (anomaly_offset : ℚ) : ℚ :=
  base + wave_amp * sinAt period t + noise_amp * gaussStd +
    (if anomaly then anomaly_offset else 0)

/-- `MockSensor._generate_ppg_waveform`: a two-lobe pulse model with noise,
each sample rounded to four digits. -/
def MockSensor.generate_ppg_waveform (pyExp : ℚ → ℚ) (gaussStd : ℕ → ℚ)
    (heart_rate : ℚ) (samples : ℕ) : List ℚ :=
  let freq := heart_rate / 60
  (List.range samples).map (fun (i : ℕ) =>
    let t : ℚ := (i : ℚ) / (samples : ℚ)
    let pulse := pyExp (-((qfmod t (1/freq) * freq - 0.3) ^ 2) / 0.01)
    let notch := 0.3 * pyExp (-((qfmod t (1/freq) * freq - 0.55) ^ 2) / 0.005)
    let noise := 0.02 * gaussStd i
    roundTo 4 (pulse + notch + noise))

/-- `MockSensor.read()` at tick `t` (the tick after the increment), with the
cycle's random draws `d`.  Each vital is generated, clamped to its range with
`max lo (min hi ·)` and rounded to one digit; the waveform is derived from the
clamped heart rate with the default sample count 50. -/
def MockSensor.read (sinAt : ℕ → ℕ → ℚ) (pyExp : ℚ → ℚ) (now : ℤ)
    (t : ℕ) (d : MockDraws) : SensorData :=
  let is_anomaly := d.anomalyRoll
  let heart_rate :=
    MockSensor.generate_vital sinAt 72 3 5 60 t d.gaussHr is_anomaly
      (if d.hrChoice then 30 else -20)
  let heart_rate := roundTo 1 (max 40 (min 180 heart_rate))
  let spo2 :=
    MockSensor.generate_vital sinAt 97.5 0.3 0.8 90 t d.gaussSpo2 is_anomaly (-5)
  let spo2 := roundTo 1 (max 85 (min 100 spo2))
  let temperature :=
    MockSensor.generate_vital sinAt 36.6 0.05 0.2 120 t d.gaussTemp is_anomaly 1.5
  let temperature := roundTo 1 (max 35 (min 42 temperature))
  let bp_sys :=
    MockSensor.generate_vital sinAt 120 2 4 80 t d.gaussSys is_anomaly 25
  let bp_sys := roundTo 1 (max 80 (min 200 bp_sys))
  let bp_dia :=
    MockSensor.generate_vital sinAt 78 1.5 3 80 t d.gaussDia is_anomaly 15
  let bp_dia := roundTo 1 (max 50 (min 130 bp_dia))
  let respiratory_rate :=
    MockSensor.generate_vital sinAt 16 1 2 100 t d.gaussRr is_anomaly 8
  let respiratory_rate := roundTo 1 (max 8 (min 35 respiratory_rate))
  let ppg_raw := MockSensor.generate_ppg_waveform pyExp d.ppgGauss heart_rate 50
  { timestamp := now
    heart_rate := some heart_rate
    spo2 := some spo2
    temperature := some temperature
    blood_pressure_sys := some bp_sys
    blood_pressure_dia := some bp_dia
    respiratory_rate := some respiratory_rate
    ppg_raw := some ppg_raw }

/-! ## Sync engine (`app/sync/sync_service.py`) -/

/-- Compile-time retry cap (`sync_service.py` line 29). -/
def MAX_RETRIES : ℕ := 3

/-- Compile-time backoff base in seconds (`sync_service.py` line 30). -/
def BACKOFF_BASE : ℕ := 2

/-- One entry of the `readings` array of the batch payload
(`sync_service.py` lines 77–89): uuid, ISO timestamp (or `None`), and the six
vitals — nothing else. -/
structure PayloadReading where
  uuid : String
  timestamp : Option String
  heart_rate : Option ℚ
  spo2 : Option ℚ
  temperature : Option ℚ
  blood_pressure_sys : Option ℚ
  blood_pressure_dia : Option ℚ
  respiratory_rate : Option ℚ
deriving DecidableEq, Repr

/-- The batch payload dict (`sync_service.py` lines 74–90). -/
structure PayloadData where
  device_id : String
  batch_timestamp : String
  readings : List PayloadReading
deriving DecidableEq, Repr

/-- Model of `datetime.isoformat` on the integer-time model: any injective
rendering works; `toString` is used. -/
def isoformat (ts : ℤ) : String := toString ts

/-- The per-reading payload entry built inside the list comprehension at
`sync_service.py` lines 78–87 (`r.timestamp.isoformat() if r.timestamp else
None` becomes `Option.map isoformat`). -/
def payloadReadingOf (r : VitalReading) : PayloadReading :=
  { uuid := r.uuid
    timestamp := r.timestamp.map isoformat
    heart_rate := r.heart_rate
    spo2 := r.spo2
    temperature := r.temperature
    blood_pressure_sys := r.blood_pressure_sys
    blood_pressure_dia := r.blood_pressure_dia
    respiratory_rate := r.respiratory_rate }

/-- `payload_data` as assembled at `sync_service.py` lines 74–90. -/
def buildPayload (device_id batch_timestamp : String)
    (readings : List VitalReading) : PayloadData :=
  { device_id := device_id
    batch_timestamp := batch_timestamp
    readings := readings.map payloadReadingOf }

/-- `_sign_payload(payload, secret)` (`sync_service.py` lines 33–39):
the hex digest of HMAC-SHA256 keyed by `secret` over `payload`.  The HMAC
primitive (`hmac`/`hashlib`, taking the key then the message) is an external
library and enters as the parameter `hmacSha256Hex`. -/
def sign_payload (hmacSha256Hex : String → String → String)
    (payload secret : String) : String :=
  hmacSha256Hex secret payload

/-- The request headers dict (`sync_service.py` lines 96–101). -/
structure Headers where
  content_type : String
  x_device_id : String
  x_signature : String
  authorization : String
deriving DecidableEq, Repr

/-- The outbound POST as handed to the HTTP client (`sync_service.py`
lines 106–111). -/
structure HttpRequest where
  url : String
  body : String
  headers : Headers
deriving DecidableEq, Repr

/-- Environment behaviour of one POST attempt inside the retry loop:
an HTTP response with a status code, an `httpx.HTTPError` (caught at line 122),
or any other exception (uncaught by the inner handler, so it aborts the loop
and propagates to the top-level handler at line 148). -/
inductive AttemptOutcome where
  | status (code : ℕ)
  | netError (msg : String)
  | fatal (msg : String)
deriving DecidableEq, Repr

/-- `response.status_code in (200, 201, 202)` (`sync_service.py` line 113). -/
def successStatus (code : ℕ) : Bool :=
  code == 200 || code == 201 || code == 202

/-- Accumulated observable effects of the retry loop
(`sync_service.py` lines 103–131). -/
structure RetryResult where
  sent : Bool
  sleeps : List ℕ
  calls : ℕ
  fatal : Option String
deriving DecidableEq, Repr

/-- The retry loop from attempt number `attempt` with `remaining` loop
iterations left (`remaining = MAX_RETRIES - attempt + 1` at every call).
A failed attempt sleeps `BACKOFF_BASE ^ attempt` seconds iff
`attempt < MAX_RETRIES`, i.e. iff further iterations remain. -/
def runRetriesGo (outcomes : ℕ → AttemptOutcome) :
    ℕ → ℕ → RetryResult
  | 0, _ => { sent := false, sleeps := [], calls := 0, fatal := none }
  | remaining + 1, attempt =>
    let onFail : RetryResult :=
      let rest := runRetriesGo outcomes remaining (attempt + 1)
      { sent := rest.sent
        sleeps := (if remaining = 0 then [] else [BACKOFF_BASE ^ attempt]) ++ rest.sleeps
        calls := 1 + rest.calls
        fatal := rest.fatal }
    match outcomes attempt with
    | .fatal msg => { sent := false, sleeps := [], calls := 1, fatal := some msg }
    | .netError _ => onFail
    | .status code =>
      if successStatus code then
        { sent := true, sleeps := [], calls := 1, fatal := none }
      else onFail

/-- The whole retry loop `for attempt in range(1, MAX_RETRIES + 1)`. -/
def runRetries (outcomes : ℕ → AttemptOutcome) : RetryResult :=
  runRetriesGo outcomes MAX_RETRIES 1

/-- Environment of one `sync_now()` invocation: the store contents, the
configuration values, the clock readings, the external JSON / HMAC primitives,
the behaviour of each POST attempt, and possible store exceptions: `fetchFail`
models an exception raised during the fetch/payload phase (before the retry
loop), `commitFail` one raised during the mark-synced commit; both are caught
by the top-level handler at `sync_service.py` line 148. -/
structure SyncEnv where
  store : List VitalReading
  batch_size : ℕ
  device_id : String
  api_key : String
  server_url : String
  batch_timestamp : String
  now : ℤ
  duration_ms : ℕ
  jsonDumps : PayloadData → String
  hmacSha256Hex : String → String → String
  outcomes : ℕ → AttemptOutcome
  fetchFail : Option String
  commitFail : Option String

/-- Observable outcome of one `sync_now()` invocation: the returned
`SyncResult`, the `SyncLog` rows written during the cycle, the store after the
cycle, the POST request built (if any), the backoff sleeps performed, and the
number of network calls made. -/
structure CycleOutput where
  result : SyncResult
  logs : List SyncLogEntry
  store : List VitalReading
  request : Option HttpRequest
  sleeps : List ℕ
  calls : ℕ

/-- `sync_now()` (`sync_service.py` lines 42–164).  Every path funnels into
exactly one `_log_sync` call: the empty-batch early return (line 66), or the
unconditional audit write at lines 156–157 after the try/except. -/
def syncNow (env : SyncEnv) : CycleOutput :=
  match env.fetchFail with
  | some msg =>
    { result := ⟨"failed", 0, env.duration_ms, some msg⟩
      logs := [⟨0, "failed", some msg, env.duration_ms⟩]
      store := env.store, request := none, sleeps := [], calls := 0 }
  | none =>
    let readings := selectBatch env.store env.batch_size
    if readings.isEmpty then
      { result := ⟨"success", 0, env.duration_ms, none⟩
        logs := [⟨0, "success", none, env.duration_ms⟩]
        store := env.store, request := none, sleeps := [], calls := 0 }
    else
      let payload_json := env.jsonDumps (buildPayload env.device_id env.batch_timestamp readings)
      let signature := sign_payload env.hmacSha256Hex payload_json env.api_key
      let headers : Headers :=
        { content_type := "application/json"
          x_device_id := env.device_id
          x_signature := signature
          authorization := "Bearer " ++ env.api_key }
      let req : HttpRequest := ⟨env.server_url ++ "/sync/upload", payload_json, headers⟩
      let rr := runRetries env.outcomes
      match rr.fatal with
      | some msg =>
        { result := ⟨"failed", 0, env.duration_ms, some msg⟩
          logs := [⟨0, "failed", some msg, env.duration_ms⟩]
          store := env.store, request := some req, sleeps := rr.sleeps, calls := rr.calls }
      | none =>
        if rr.sent then
          match env.commitFail with
          | some msg =>
            { result := ⟨"failed", readings.length, env.duration_ms, some msg⟩
              logs := [⟨readings.length, "failed", some msg, env.duration_ms⟩]
              store := env.store, request := some req, sleeps := rr.sleeps, calls := rr.calls }
          | none =>
            { result := ⟨"success", readings.length, env.duration_ms, none⟩
              logs := [⟨readings.length, "success", none, env.duration_ms⟩]
              store := markSynced env.store (readings.map (·.id)) env.now
              request := some req, sleeps := rr.sleeps, calls := rr.calls }
        else
          { result := ⟨"failed", 0, env.duration_ms, some "All retry attempts exhausted"⟩
            logs := [⟨0, "failed", some "All retry attempts exhausted", env.duration_ms⟩]
            store := env.store, request := some req, sleeps := rr.sleeps, calls := rr.calls }

/-! ## Collection loop (`app/sensors/sensor_manager.py` lines 87–109) -/

/-- Environment behaviour of one collection cycle: either the read/persist
pair raised (caught by the `except` at line 106), or the read produced a
sample (with the store-generated row uuid). -/
inductive CycleOutcome where
  | fail (msg : String)
  | ok (data : SensorData) (uuid : String)

/-- The body of one iteration of `_collection_loop`: a failing cycle leaves
the store unchanged; a successful one persists the sample with
`synced = False`.  Either way the loop then sleeps `interval` seconds.
The store-assigned autoincrement id is modelled by the row count. -/
def collectionCycle (interval patient_id : ℕ) (o : CycleOutcome)
    (store : List VitalReading) : List VitalReading × ℕ :=
  match o with
  | .fail _ => (store, interval)
  | .ok data uuid => (persist_reading data patient_id store.length uuid store, interval)

/-- A finite unrolling of `_collection_loop`: run one cycle per environment
outcome, threading the store and recording each sleep. -/
def collectionLoop (interval patient_id : ℕ) :
    List CycleOutcome → List VitalReading → List VitalReading × List ℕ
  | [], store => (store, [])
  | o :: rest, store =>
    let s := collectionCycle interval patient_id o store
    let r := collectionLoop interval patient_id rest s.1
    (r.1, s.2 :: r.2)

/-! ## Auxiliary lemmas -/

/-- A retry attempt that the loop counts as failed: a response outside the
success statuses, or a network-level `httpx.HTTPError`. -/
def attemptFails : AttemptOutcome → Prop
  | .status code => successStatus code = false
  | .netError _ => True
  | .fatal _ => False

/-- A retry attempt that the loop counts as delivered: a response with a
success status. -/
def attemptSucceeds : AttemptOutcome → Prop
  | .status code => successStatus code = true
  | .netError _ => False
  | .fatal _ => False

theorem range_pow_cons (b a m : ℕ) :
    (List.range (m + 1)).map (fun i => b ^ (a + i)) =
      b ^ a :: (List.range m).map (fun i => b ^ (a + 1 + i)) := by
  rw [List.range_succ_eq_map, List.map_cons, List.map_map]
  congr 1
  congr 1
  funext i
  simp only [Function.comp]
  congr 1
  omega

/-- If every attempt in the window fails, the loop ends unsent with no fatal
error, having slept after each attempt but the last. -/
theorem runRetriesGo_allFail (outcomes : ℕ → AttemptOutcome) :
    ∀ remaining attempt,
      (∀ k, attempt ≤ k → k < attempt + remaining → attemptFails (outcomes k)) →
      (runRetriesGo outcomes remaining attempt).sent = false ∧
      (runRetriesGo outcomes remaining attempt).fatal = none ∧
      (runRetriesGo outcomes remaining attempt).sleeps =
        (List.range (remaining - 1)).map (fun i => BACKOFF_BASE ^ (attempt + i)) := by
  intro remaining
  induction remaining with
  | zero => intro attempt _; exact ⟨rfl, rfl, rfl⟩
  | succ r ih =>
    intro attempt h
    have h0 := h attempt le_rfl (by omega)
    have rest := ih (attempt + 1) (fun k hk1 hk2 => h k (by omega) (by omega))
    cases ho : outcomes attempt with
    | fatal msg => rw [ho] at h0; exact absurd h0 (by simp [attemptFails])
    | netError msg =>
      simp only [runRetriesGo, ho]
      refine ⟨rest.1, rest.2.1, ?_⟩
      rw [rest.2.2]
      cases r with
      | zero => simp
      | succ r' =>
        simp only [Nat.succ_sub_one, Nat.add_sub_cancel]
        rw [range_pow_cons]
        simp
    | status code =>
      rw [ho] at h0
      have hc : successStatus code = false := h0
      simp only [runRetriesGo, ho, hc]
      refine ⟨rest.1, rest.2.1, ?_⟩
      rw [rest.2.2]
      cases r with
      | zero => simp
      | succ r' =>
        simp only [Nat.succ_sub_one, Nat.add_sub_cancel]
        rw [range_pow_cons]
        simp

/-- If the first success in the window is at attempt `k`, the loop reports
sent with exactly one backoff sleep per failed attempt before `k`. -/
theorem runRetriesGo_success (outcomes : ℕ → AttemptOutcome) :
    ∀ remaining attempt k, attempt ≤ k → k < attempt + remaining →
      (∀ j, attempt ≤ j → j < k → attemptFails (outcomes j)) →
      attemptSucceeds (outcomes k) →
      (runRetriesGo outcomes remaining attempt).sent = true ∧
      (runRetriesGo outcomes remaining attempt).fatal = none ∧
      (runRetriesGo outcomes remaining attempt).sleeps =
        (List.range (k - attempt)).map (fun i => BACKOFF_BASE ^ (attempt + i)) := by
  intro remaining
  induction remaining with
  | zero => intro attempt k h1 h2 _ _; omega
  | succ r ih =>
    intro attempt k h1 h2 hfails hsucc
    rcases eq_or_lt_of_le h1 with heq | hlt
    · subst heq
      cases ho : outcomes attempt with
      | fatal msg => rw [ho] at hsucc; exact absurd hsucc (by simp [attemptSucceeds])
      | netError msg => rw [ho] at hsucc; exact absurd hsucc (by simp [attemptSucceeds])
      | status code =>
        rw [ho] at hsucc
        have hc : successStatus code = true := hsucc
        simp [runRetriesGo, ho, hc]
    · have h0 := hfails attempt le_rfl hlt
      have hr1 : 1 ≤ r := by omega
      have rest := ih (attempt + 1) k (by omega) (by omega)
        (fun j hj1 hj2 => hfails j (by omega) hj2) hsucc
      have hkk : k - attempt = (k - (attempt + 1)) + 1 := by omega
      cases ho : outcomes attempt with
      | fatal msg => rw [ho] at h0; exact absurd h0 (by simp [attemptFails])
      | netError msg =>
        simp only [runRetriesGo, ho]
        refine ⟨rest.1, rest.2.1, ?_⟩
        rw [rest.2.2, hkk, range_pow_cons, if_neg (show ¬r = 0 by omega)]
        simp
      | status code =>
        rw [ho] at h0
        have hc : successStatus code = false := h0
        simp only [runRetriesGo, ho, hc]
        refine ⟨rest.1, rest.2.1, ?_⟩
        rw [rest.2.2, hkk, range_pow_cons, if_neg (show ¬r = 0 by omega)]
        simp

theorem runRetries_allFail (outcomes : ℕ → AttemptOutcome)
    (h : ∀ k, 1 ≤ k → k ≤ MAX_RETRIES → attemptFails (outcomes k)) :
    (runRetries outcomes).sent = false ∧
    (runRetries outcomes).fatal = none ∧
    (runRetries outcomes).sleeps = [BACKOFF_BASE ^ 1, BACKOFF_BASE ^ 2] := by
  have hgo := runRetriesGo_allFail outcomes MAX_RETRIES 1
    (fun k hk1 hk2 => h k hk1 (by omega))
  unfold runRetries
  exact ⟨hgo.1, hgo.2.1, by rw [hgo.2.2]; rfl⟩

theorem runRetriesGo_sleeps_le (outcomes : ℕ → AttemptOutcome) :
    ∀ remaining attempt,
      (runRetriesGo outcomes remaining attempt).sleeps.length ≤ remaining - 1 := by
  intro remaining
  induction remaining with
  | zero => intro _; simp [runRetriesGo]
  | succ r ih =>
    intro attempt
    have hrest := ih (attempt + 1)
    cases ho : outcomes attempt with
    | fatal msg => simp [runRetriesGo, ho]
    | netError msg =>
      simp only [runRetriesGo, ho, List.length_append]
      by_cases hr : r = 0
      · subst hr; simpa using hrest
      · rw [if_neg hr]; simp only [List.length_cons, List.length_nil]; omega
    | status code =>
      simp only [runRetriesGo, ho]
      by_cases hc : successStatus code = true
      · simp [hc]
      · simp only [hc, Bool.false_eq_true, if_false, List.length_append]
        by_cases hr : r = 0
        · subst hr; simpa using hrest
        · rw [if_neg hr]; simp only [List.length_cons, List.length_nil]; omega

/-- A store whose records are all synced yields an empty batch. -/
theorem selectBatch_eq_nil_of_all_synced (store : List VitalReading) (n : ℕ)
    (h : ∀ r ∈ store, r.synced = true) : selectBatch store n = [] := by
  have hf : store.filter (fun r => !r.synced) = [] := by
    rw [List.filter_eq_nil_iff]
    intro r hr
    simp [h r hr]
  simp [selectBatch, hf]

/-! ## Claims -/

/-- C1: every invocation of the sync cycle persists exactly one SyncAttempt
audit entry before returning, on every control path: exception during the
fetch/payload phase, empty batch, fatal exception inside the retry loop,
successful delivery (with or without a commit failure), and retry
exhaustion. -/
theorem sync_cycle_exactly_one_audit_entry (env : SyncEnv) :
    (syncNow env).logs.length = 1 := by
  unfold syncNow
  split
  · rfl
  · dsimp only
    split
    · rfl
    · split
      · rfl
      · split
        · split
          · rfl
          · rfl
        · rfl

/-- C3: for every store state, the selected batch contains only unsynced
records, has size at most the configured batch size, and is ordered by
ascending timestamp. -/
theorem sync_batch_selection_spec (store : List VitalReading) (n : ℕ) :
    (∀ r ∈ selectBatch store n, r.synced = false) ∧
    (selectBatch store n).length ≤ n ∧
    (selectBatch store n).Pairwise byTimestamp := by
  refine ⟨?_, ?_, ?_⟩
  · intro r hr
    have h1 : r ∈ List.insertionSort byTimestamp
        (store.filter (fun r => !r.synced)) := List.mem_of_mem_take hr
    have h2 : r ∈ store.filter (fun r => !r.synced) :=
      (List.perm_insertionSort byTimestamp _).mem_iff.mp h1
    simpa using (List.mem_filter.mp h2).2
  · simp [selectBatch]
  · exact List.Pairwise.sublist (List.take_sublist _ _)
      (List.sorted_insertionSort byTimestamp _)

/-- C5: when the store holds no unsynced record (and the store fetch does not
raise), the cycle returns a `success` result with zero records, writes one
`success`/count-0 audit row, makes no network call, and leaves the store
untouched. -/
theorem sync_empty_store_noop (env : SyncEnv)
    (hf : env.fetchFail = none)
    (h : ∀ r ∈ env.store, r.synced = true) :
    (syncNow env).result = ⟨"success", 0, env.duration_ms, none⟩ ∧
    (syncNow env).logs = [⟨0, "success", none, env.duration_ms⟩] ∧
    (syncNow env).calls = 0 ∧
    (syncNow env).store = env.store := by
  have hsel : selectBatch env.store env.batch_size = [] :=
    selectBatch_eq_nil_of_all_synced _ _ h
  unfold syncNow
  rw [hf]
  simp [hsel]

/-- C4: within one cycle, success on attempt `k ≤ MAX_RETRIES` is preceded by
exactly `k - 1` backoff sleeps of durations `BACKOFF_BASE ^ 1 …
BACKOFF_BASE ^ (k-1)`; when every attempt fails the sleeps are exactly
`BACKOFF_BASE ^ 1, …, BACKOFF_BASE ^ (MAX_RETRIES - 1)` — none after the final
attempt; and no execution of the loop ever sleeps more than
`MAX_RETRIES - 1` times. -/
theorem sync_backoff_schedule :
    (∀ (outcomes : ℕ → AttemptOutcome) (k : ℕ), 1 ≤ k → k ≤ MAX_RETRIES →
      (∀ j, 1 ≤ j → j < k → attemptFails (outcomes j)) →
      attemptSucceeds (outcomes k) →
      (runRetries outcomes).sent = true ∧
      (runRetries outcomes).sleeps =
        (List.range (k - 1)).map (fun i => BACKOFF_BASE ^ (1 + i))) ∧
    (∀ (outcomes : ℕ → AttemptOutcome),
      (∀ k, 1 ≤ k → k ≤ MAX_RETRIES → attemptFails (outcomes k)) →
      (runRetries outcomes).sleeps = [BACKOFF_BASE ^ 1, BACKOFF_BASE ^ 2]) ∧
    (∀ (outcomes : ℕ → AttemptOutcome),
      (runRetries outcomes).sleeps.length ≤ MAX_RETRIES - 1) := by
  refine ⟨?_, ?_, ?_⟩
  · intro outcomes k hk1 hk2 hfails hsucc
    have hgo := runRetriesGo_success outcomes MAX_RETRIES 1 k hk1 (by omega) hfails hsucc
    exact ⟨hgo.1, hgo.2.2⟩
  · intro outcomes h
    exact (runRetries_allFail outcomes h).2.2
  · intro outcomes
    exact runRetriesGo_sleeps_le outcomes MAX_RETRIES 1

/-- C2: when the batch is non-empty and all `MAX_RETRIES` delivery attempts
fail, the cycle's result and its single audit entry report `failed` with zero
records sent and the "All retry attempts exhausted" error, and the store is
unchanged — every record of the attempted batch keeps `synced = false` and
stays eligible for reselection. -/
theorem sync_all_retries_exhausted (env : SyncEnv)
    (hf : env.fetchFail = none)
    (hne : selectBatch env.store env.batch_size ≠ [])
    (hall : ∀ k, 1 ≤ k → k ≤ MAX_RETRIES → attemptFails (env.outcomes k)) :
    (syncNow env).result = ⟨"failed", 0, env.duration_ms, some "All retry attempts exhausted"⟩ ∧
    (syncNow env).logs = [⟨0, "failed", some "All retry attempts exhausted", env.duration_ms⟩] ∧
    (syncNow env).store = env.store := by
  have hrr := runRetries_allFail env.outcomes hall
  unfold syncNow
  rw [hf]
  simp [hne, hrr.1, hrr.2.1]

/-! ### Payload fidelity (C6) -/

/-- A concrete reading carrying no raw waveform. -/
def readingNoPpg : VitalReading :=
  { id := 1, uuid := "aaaa", patient_id := 1, timestamp := some 100,
    heart_rate := some 72, spo2 := some 97, temperature := some 36.6,
    blood_pressure_sys := some 120, blood_pressure_dia := some 78,
    respiratory_rate := some 16, ppg_raw := none, synced := false, synced_at := none }

/-- The same reading except for a non-null raw waveform. -/
def readingWithPpg : VitalReading := { readingNoPpg with ppg_raw := some [1, 2] }

/-- C6 (counterexample): the batch payload does NOT contain every content
field of the selected records: two records that differ only in the `ppg_raw`
waveform — a content field, not a sync-state field — produce identical
payloads, so the claim that the payload carries the records' content fields
excluding only `synced`/`synced_at` is false. -/
theorem sync_payload_drops_waveform :
    readingNoPpg.ppg_raw ≠ readingWithPpg.ppg_raw ∧
    buildPayload "edge-node-001" "2026-01-01T00:00:00" [readingNoPpg] =
      buildPayload "edge-node-001" "2026-01-01T00:00:00" [readingWithPpg] := by
  constructor
  · simp [readingNoPpg, readingWithPpg]
  · rfl

/-- C6 (amended): for every non-empty selected batch, the cycle builds one
POST request whose body is the serialized payload carrying the device
identifier, the batch-creation timestamp and, per selected record, its uuid,
capture timestamp and the six vital fields — excluding the sync-state fields,
the raw waveform and the internal ids; the `X-Signature` header is the
HMAC-SHA256 hex digest over those exact serialized bytes under the shared
secret key, and the headers also carry the device identifier and the bearer
credential. -/
theorem sync_request_payload_and_signature (env : SyncEnv)
    (hf : env.fetchFail = none)
    (hne : selectBatch env.store env.batch_size ≠ []) :
    (syncNow env).request = some
      { url := env.server_url ++ "/sync/upload"
        body := env.jsonDumps (buildPayload env.device_id env.batch_timestamp
          (selectBatch env.store env.batch_size))
        headers :=
          { content_type := "application/json"
            x_device_id := env.device_id
            x_signature := sign_payload env.hmacSha256Hex
              (env.jsonDumps (buildPayload env.device_id env.batch_timestamp
                (selectBatch env.store env.batch_size))) env.api_key
            authorization := "Bearer " ++ env.api_key } } ∧
    (buildPayload env.device_id env.batch_timestamp
      (selectBatch env.store env.batch_size)).device_id = env.device_id ∧
    (buildPayload env.device_id env.batch_timestamp
      (selectBatch env.store env.batch_size)).batch_timestamp = env.batch_timestamp ∧
    (buildPayload env.device_id env.batch_timestamp
      (selectBatch env.store env.batch_size)).readings =
      (selectBatch env.store env.batch_size).map payloadReadingOf ∧
    (∀ r : VitalReading, payloadReadingOf r =
      { uuid := r.uuid
        timestamp := r.timestamp.map isoformat
        heart_rate := r.heart_rate
        spo2 := r.spo2
        temperature := r.temperature
        blood_pressure_sys := r.blood_pressure_sys
        blood_pressure_dia := r.blood_pressure_dia
        respiratory_rate := r.respiratory_rate }) := by
  refine ⟨?_, rfl, rfl, rfl, fun r => rfl⟩
  unfold syncNow
  rw [hf]
  dsimp only
  rw [if_neg (by simpa using hne)]
  split
  · rfl
  · split
    · split
      · rfl
      · rfl
    · rfl

/-! ### Sync-state invariant (C7) -/

/-- The sync-state invariant of one record: `synced_at` is non-null iff
`synced` is true. -/
def recInv (r : VitalReading) : Prop := r.synced_at.isSome = r.synced

instance (r : VitalReading) : Decidable (recInv r) := by
  unfold recInv
  infer_instance

/-- C7: the two record-writing operations of the core preserve the sync-state
invariant (`synced_at` non-null iff `synced`), insertion leaves existing
records untouched, and mark-synced never resets a true `synced` flag — the
flag is monotonic at every observation point. -/
theorem sync_state_invariant_preserved :
    (∀ (store : List VitalReading) (data : SensorData) (pid id : ℕ) (uuid : String),
      (∀ r ∈ store, recInv r) →
      ∀ r ∈ persist_reading data pid id uuid store, recInv r) ∧
    (∀ (store : List VitalReading) (ids : List ℕ) (now : ℤ),
      (∀ r ∈ store, recInv r) →
      ∀ r ∈ markSynced store ids now, recInv r) ∧
    (∀ (store : List VitalReading) (data : SensorData) (pid id : ℕ) (uuid : String)
        (i : ℕ) (h1 : i < store.length) (h2 : i < (persist_reading data pid id uuid store).length),
      (persist_reading data pid id uuid store)[i] = store[i]) ∧
    (∀ (store : List VitalReading) (ids : List ℕ) (now : ℤ) (i : ℕ)
        (h1 : i < store.length) (h2 : i < (markSynced store ids now).length),
      store[i].synced = true → (markSynced store ids now)[i].synced = true) := by
  refine ⟨?_, ?_, ?_, ?_⟩
  · intro store data pid id uuid hinv r hr
    rcases List.mem_append.mp hr with h | h
    · exact hinv r h
    · rcases List.mem_singleton.mp h with rfl
      rfl
  · intro store ids now hinv r hr
    rcases List.mem_map.mp hr with ⟨x, hx, rfl⟩
    by_cases hid : x.id ∈ ids
    · simp [recInv, hid]
    · simpa [recInv, hid] using hinv x hx
  · intro store data pid id uuid i h1 h2
    exact List.getElem_append_left h1
  · intro store ids now i h1 h2 hs
    simp only [markSynced, List.getElem_map]
    by_cases hid : store[i].id ∈ ids
    · simp [hid]
    · simpa [hid] using hs

/-- C8: a read/persist failure inside one collection cycle leaves the store
unchanged and still sleeps the fixed interval; the loop is not terminated —
the remaining cycles run exactly as they would have from the same store; and a
successful cycle appends exactly one record persisted with `synced = false`
(and a null `synced_at`). -/
theorem collection_loop_failure_isolation (interval patient_id : ℕ)
    (msg : String) (rest : List CycleOutcome) (store : List VitalReading)
    (data : SensorData) (uuid : String) :
    collectionCycle interval patient_id (CycleOutcome.fail msg) store = (store, interval) ∧
    collectionLoop interval patient_id (CycleOutcome.fail msg :: rest) store =
      ((collectionLoop interval patient_id rest store).1,
        interval :: (collectionLoop interval patient_id rest store).2) ∧
    (∃ rec : VitalReading,
      collectionCycle interval patient_id (CycleOutcome.ok data uuid) store =
        (store ++ [rec], interval) ∧ rec.synced = false ∧ rec.synced_at = none) := by
  exact ⟨rfl, rfl, ⟨_, rfl, rfl, rfl⟩⟩

/-! ### Clamp-range bounds (C9, C10) -/

theorem pyRound_bounds (y : ℚ) : ⌊y⌋ ≤ pyRound y ∧ pyRound y ≤ ⌈y⌉ := by
  unfold pyRound
  dsimp only
  by_cases h1 : y - ⌊y⌋ < 1/2
  · rw [if_pos h1]
    exact ⟨le_refl _, Int.floor_le_ceil y⟩
  · rw [if_neg h1]
    have hlt : (⌊y⌋ : ℚ) < y := by
      have := Int.floor_le y
      by_contra hc
      push_neg at hc
      have : (⌊y⌋ : ℚ) = y := le_antisymm this hc
      rw [this] at h1
      simp at h1
    have hceil : ⌊y⌋ + 1 ≤ ⌈y⌉ := by
      have : ⌊y⌋ < ⌈y⌉ := by
        rw [Int.lt_ceil]
        exact hlt
      omega
    by_cases h2 : 1/2 < y - ⌊y⌋
    · rw [if_pos h2]
      exact ⟨by omega, hceil⟩
    · rw [if_neg h2]
      by_cases h3 : Even (⌊y⌋)
      · rw [if_pos h3]
        exact ⟨le_refl _, Int.floor_le_ceil y⟩
      · rw [if_neg h3]
        exact ⟨by omega, hceil⟩

theorem roundTo_one_clamp_mem (lo hi : ℤ) (x : ℚ) (h : lo ≤ hi) :
    (lo : ℚ) ≤ roundTo 1 (max (lo : ℚ) (min (hi : ℚ) x)) ∧
    roundTo 1 (max (lo : ℚ) (min (hi : ℚ) x)) ≤ (hi : ℚ) := by
  set m : ℚ := max (lo : ℚ) (min (hi : ℚ) x) with hm
  have hlom : (lo : ℚ) ≤ m := le_max_left _ _
  have hmhi : m ≤ (hi : ℚ) := by
    apply max_le
    · exact_mod_cast h
    · exact min_le_left _ _
  have hb := pyRound_bounds (m * 10 ^ 1)
  have hfl : (lo * 10 : ℤ) ≤ ⌊m * 10 ^ 1⌋ := by
    rw [show ((lo * 10 : ℤ) : ℤ) = ⌊((lo * 10 : ℤ) : ℚ)⌋ from (Int.floor_intCast _).symm]
    apply Int.floor_le_floor
    push_cast
    nlinarith
  have hcl : ⌈m * 10 ^ 1⌉ ≤ (hi * 10 : ℤ) := by
    rw [show ((hi * 10 : ℤ) : ℤ) = ⌈((hi * 10 : ℤ) : ℚ)⌉ from (Int.ceil_intCast _).symm]
    apply Int.ceil_le_ceil
    push_cast
    nlinarith
  have hlow : (lo * 10 : ℤ) ≤ pyRound (m * 10 ^ 1) := le_trans hfl hb.1
  have hhigh : pyRound (m * 10 ^ 1) ≤ (hi * 10 : ℤ) := le_trans hb.2 hcl
  unfold roundTo
  constructor
  · rw [le_div_iff₀ (by norm_num : (0:ℚ) < (10:ℚ) ^ 1)]
    norm_num
    exact_mod_cast hlow
  · rw [div_le_iff₀ (by norm_num : (0:ℚ) < (10:ℚ) ^ 1)]
    norm_num
    exact_mod_cast hhigh



/-- C9: for every tick and every possible random draw (anomaly injected or
not) and for every behaviour of the `sin`/`exp` library calls, each vital
produced by the simulated sensor's `read()` lies within its configured
clamping range: heart rate in [40,180], SpO2 in [85,100], temperature in
[35,42], systolic BP in [80,200], diastolic BP in [50,130], respiratory rate
in [8,35]. -/
theorem mock_vitals_within_clamp_ranges
    (sinAt : ℕ → ℕ → ℚ) (pyExp : ℚ → ℚ) (now : ℤ) (t : ℕ) (d : MockDraws) :
    (∀ v ∈ (MockSensor.read sinAt pyExp now t d).heart_rate, 40 ≤ v ∧ v ≤ 180) ∧
    (∀ v ∈ (MockSensor.read sinAt pyExp now t d).spo2, 85 ≤ v ∧ v ≤ 100) ∧
    (∀ v ∈ (MockSensor.read sinAt pyExp now t d).temperature, 35 ≤ v ∧ v ≤ 42) ∧
    (∀ v ∈ (MockSensor.read sinAt pyExp now t d).blood_pressure_sys, 80 ≤ v ∧ v ≤ 200) ∧
    (∀ v ∈ (MockSensor.read sinAt pyExp now t d).blood_pressure_dia, 50 ≤ v ∧ v ≤ 130) ∧
    (∀ v ∈ (MockSensor.read sinAt pyExp now t d).respiratory_rate, 8 ≤ v ∧ v ≤ 35) := by
  refine ⟨?_, ?_, ?_, ?_, ?_, ?_⟩ <;>
    (intro v hv
     rw [Option.mem_def, MockSensor.read] at hv
     dsimp only at hv
     rw [Option.some_inj] at hv
     subst hv)
  · have h := roundTo_one_clamp_mem 40 180
      (MockSensor.generate_vital sinAt 72 3 5 60 t d.gaussHr d.anomalyRoll
        (if d.hrChoice then 30 else -20)) (by norm_num)
    push_cast at h
    exact h
  · have h := roundTo_one_clamp_mem 85 100
      (MockSensor.generate_vital sinAt 97.5 0.3 0.8 90 t d.gaussSpo2 d.anomalyRoll (-5))
      (by norm_num)
    push_cast at h
    exact h
  · have h := roundTo_one_clamp_mem 35 42
      (MockSensor.generate_vital sinAt 36.6 0.05 0.2 120 t d.gaussTemp d.anomalyRoll 1.5)
      (by norm_num)
    push_cast at h
    exact h
  · have h := roundTo_one_clamp_mem 80 200
      (MockSensor.generate_vital sinAt 120 2 4 80 t d.gaussSys d.anomalyRoll 25)
      (by norm_num)
    push_cast at h
    exact h
  · have h := roundTo_one_clamp_mem 50 130
      (MockSensor.generate_vital sinAt 78 1.5 3 80 t d.gaussDia d.anomalyRoll 15)
      (by norm_num)
    push_cast at h
    exact h
  · have h := roundTo_one_clamp_mem 8 35
      (MockSensor.generate_vital sinAt 16 1 2 100 t d.gaussRr d.anomalyRoll 8)
      (by norm_num)
    push_cast at h
    exact h



theorem roundTo_one_div (x : ℚ) : ∃ n : ℤ, roundTo 1 x = (n : ℚ) / 10 :=
  ⟨pyRound (x * 10 ^ 1), by unfold roundTo; norm_num⟩

/-- C10: every sample returned by the simulated sensor's `read()` has all six
vitals populated (none is `None`) and a waveform present, each vital is a
multiple of 1/10 (rounded to one decimal place), and the synthetic waveform
has exactly 50 samples — even though the `SensorData` model declares these
fields optional. -/
theorem mock_read_fields_populated
    (sinAt : ℕ → ℕ → ℚ) (pyExp : ℚ → ℚ) (now : ℤ) (t : ℕ) (d : MockDraws) :
    ((MockSensor.read sinAt pyExp now t d).heart_rate.isSome = true ∧
     (MockSensor.read sinAt pyExp now t d).spo2.isSome = true ∧
     (MockSensor.read sinAt pyExp now t d).temperature.isSome = true ∧
     (MockSensor.read sinAt pyExp now t d).blood_pressure_sys.isSome = true ∧
     (MockSensor.read sinAt pyExp now t d).blood_pressure_dia.isSome = true ∧
     (MockSensor.read sinAt pyExp now t d).respiratory_rate.isSome = true ∧
     (MockSensor.read sinAt pyExp now t d).ppg_raw.isSome = true) ∧
    ((∀ v ∈ (MockSensor.read sinAt pyExp now t d).heart_rate, ∃ n : ℤ, v = (n : ℚ) / 10) ∧
     (∀ v ∈ (MockSensor.read sinAt pyExp now t d).spo2, ∃ n : ℤ, v = (n : ℚ) / 10) ∧
     (∀ v ∈ (MockSensor.read sinAt pyExp now t d).temperature, ∃ n : ℤ, v = (n : ℚ) / 10) ∧
     (∀ v ∈ (MockSensor.read sinAt pyExp now t d).blood_pressure_sys, ∃ n : ℤ, v = (n : ℚ) / 10) ∧
     (∀ v ∈ (MockSensor.read sinAt pyExp now t d).blood_pressure_dia, ∃ n : ℤ, v = (n : ℚ) / 10) ∧
     (∀ v ∈ (MockSensor.read sinAt pyExp now t d).respiratory_rate, ∃ n : ℤ, v = (n : ℚ) / 10)) ∧
    (∀ w ∈ (MockSensor.read sinAt pyExp now t d).ppg_raw, w.length = 50) := by
  refine ⟨⟨rfl, rfl, rfl, rfl, rfl, rfl, rfl⟩, ⟨?_, ?_, ?_, ?_, ?_, ?_⟩, ?_⟩ <;>
    (intro v hv
     rw [Option.mem_def, MockSensor.read] at hv
     dsimp only at hv
     rw [Option.some_inj] at hv
     subst hv)
  · exact roundTo_one_div _
  · exact roundTo_one_div _
  · exact roundTo_one_div _
  · exact roundTo_one_div _
  · exact roundTo_one_div _
  · exact roundTo_one_div _
  · simp [MockSensor.generate_ppg_waveform]

/-! ## Concrete instantiations and witnesses -/

instance : ∀ o : AttemptOutcome, Decidable (attemptFails o)
  | .status code => inferInstanceAs (Decidable (successStatus code = false))
  | .netError _ => inferInstanceAs (Decidable True)
  | .fatal _ => inferInstanceAs (Decidable False)

instance : ∀ o : AttemptOutcome, Decidable (attemptSucceeds o)
  | .status code => inferInstanceAs (Decidable (successStatus code = true))
  | .netError _ => inferInstanceAs (Decidable False)
  | .fatal _ => inferInstanceAs (Decidable False)

def sampleReading : VitalReading :=
  { id := 2, uuid := "bbbb", patient_id := 1, timestamp := some 50,
    heart_rate := some 70, spo2 := some 98, temperature := some 37,
    blood_pressure_sys := some 118, blood_pressure_dia := some 76,
    respiratory_rate := some 14, ppg_raw := none, synced := false, synced_at := none }

def syncedReading : VitalReading :=
  { sampleReading with id := 3, synced := true, synced_at := some 60 }

def baseEnv : SyncEnv :=
  { store := [sampleReading]
    batch_size := 100
    device_id := "edge-node-001"
    api_key := "change-me"
    server_url := "https://central.example"
    batch_timestamp := "2026-10-12T00:00:00"
    now := 42
    duration_ms := 7
    jsonDumps := fun _ => "payload"
    hmacSha256Hex := fun k m => k ++ "#" ++ m
    outcomes := fun _ => .netError "conn reset"
    fetchFail := none
    commitFail := none }

def emptyBatchEnv : SyncEnv := { baseEnv with store := [syncedReading] }

def witnessOutcomes : ℕ → AttemptOutcome :=
  fun k => if k = 1 then .netError "conn reset" else .status 200

def zeroDraws : MockDraws :=
  { anomalyRoll := false, hrChoice := false, gaussHr := 0, gaussSpo2 := 0,
    gaussTemp := 0, gaussSys := 0, gaussDia := 0, gaussRr := 0, ppgGauss := fun _ => 0 }

theorem sync_all_retries_exhausted_witness :
    (syncNow baseEnv).result = ⟨"failed", 0, 7, some "All retry attempts exhausted"⟩ :=
  (sync_all_retries_exhausted baseEnv rfl (by decide) (fun _ _ _ => True.intro)).1

theorem sync_batch_selection_spec_witness :
    sampleReading.synced = false ∧ (selectBatch [sampleReading] 100).length ≤ 100 :=
  ⟨(sync_batch_selection_spec [sampleReading] 100).1 sampleReading (by decide),
   (sync_batch_selection_spec [sampleReading] 100).2.1⟩

theorem sync_backoff_schedule_witness :
    (runRetries witnessOutcomes).sent = true ∧
    (runRetries witnessOutcomes).sleeps =
      (List.range 1).map (fun i => BACKOFF_BASE ^ (1 + i)) :=
  sync_backoff_schedule.1 witnessOutcomes 2 (by norm_num) (by decide)
    (fun j h1 h2 => by
      have hj : j = 1 := by omega
      subst hj
      exact True.intro)
    (by decide)

theorem sync_empty_store_noop_witness :
    (syncNow emptyBatchEnv).result = ⟨"success", 0, 7, none⟩ ∧
    (syncNow emptyBatchEnv).calls = 0 :=
  ⟨(sync_empty_store_noop emptyBatchEnv rfl (by decide)).1,
   (sync_empty_store_noop emptyBatchEnv rfl (by decide)).2.2.1⟩

theorem sync_request_payload_and_signature_witness :
    (syncNow baseEnv).request = some
      { url := "https://central.example/sync/upload"
        body := "payload"
        headers :=
          { content_type := "application/json"
            x_device_id := "edge-node-001"
            x_signature := "change-me#payload"
            authorization := "Bearer change-me" } } := by
  have h := (sync_request_payload_and_signature baseEnv rfl (by decide)).1
  rw [h]
  rfl

theorem sync_state_invariant_preserved_witness :
    recInv { sampleReading with synced := true, synced_at := some 60 } :=
  sync_state_invariant_preserved.2.1 [sampleReading] [2] 60 (by decide)
    { sampleReading with synced := true, synced_at := some 60 } (by decide)

theorem mock_vitals_within_clamp_ranges_witness :
    (40 : ℚ) ≤ 72 ∧ (72 : ℚ) ≤ 180 :=
  (mock_vitals_within_clamp_ranges (fun _ _ => 0) (fun _ => 0) 0 1 zeroDraws).1 72 (by
    rw [Option.mem_def, MockSensor.read]
    dsimp only
    rw [Option.some_inj]
    norm_num [MockSensor.generate_vital, zeroDraws, roundTo, pyRound])

theorem mock_read_fields_populated_witness :
    ∃ n : ℤ, (72 : ℚ) = (n : ℚ) / 10 :=
  (mock_read_fields_populated (fun _ _ => 0) (fun _ => 0) 0 1 zeroDraws).2.1.1 72 (by
    rw [Option.mem_def, MockSensor.read]
    dsimp only
    rw [Option.some_inj]
    norm_num [MockSensor.generate_vital, zeroDraws, roundTo, pyRound])

end HealthGuard
